import Mathlib

/-!
Verification model of the Zephyr Bluetooth classic SCO subsystem
(`subsys/bluetooth/host/classic/sco_internal.h`).

The repository ships only the internal header (types, enum of channel
states, and the declarations plus doc comments of the SCO operations);
the implementing translation unit (`sco.c`) is not part of the sources.
The operational behavior below is therefore modelled from the
specification (state-machine table, demuxer, initiator, server and
callback-registry contracts), with the header's own doc comments taken
as authoritative where they constrain behavior (return values of the
registration calls, the error argument of the connected notification,
the NULL-callback skip rule, the reference held during disconnected
notifications).

Callbacks are application code and are represented by presence flags;
an invocation of a callback is recorded as an event in an observable
trace, so ordering and multiplicity of notifications are facts about
the returned trace.
-/

namespace ScoModel

/-- Life-span states of an SCO channel, from `enum bt_sco_state`
(sco_internal.h lines 14-25). -/
inductive BtScoState where
  | DISCONNECTED
  | ENCRYPT_PENDING
  | CONNECTING
  | CONNECTED
  | DISCONNECTING
deriving DecidableEq, Repr

/-- Capability table of a channel (`struct bt_sco_chan_ops`): both
callbacks are optional function pointers, modelled by presence flags. -/
structure BtScoChanOps where
  connected : Bool
  disconnected : Bool
deriving DecidableEq, Repr

/-- An SCO channel (`struct bt_sco_chan`): the bound connection object
(`sco`, nullable), the capability table and the life-span state. The
connection object is identified by a numeric id. -/
structure BtScoChan where
  sco : Option Nat
  ops : BtScoChanOps
  state : BtScoState
deriving DecidableEq, Repr

/-- A globally registered SCO connection listener
(`struct bt_sco_conn_cb`): identity of the structure (its address) and
presence flags for the two optional notification callbacks. -/
structure BtScoConnCb where
  cid : Nat
  hasConnected : Bool
  hasDisconnected : Bool
deriving DecidableEq, Repr

/-- The SCO server (`struct bt_sco_server`): identity of the structure,
required security level, and presence of the mandatory accept callback. -/
structure BtScoServer where
  sid : Nat
  secLevel : Nat
  hasAccept : Bool
deriving DecidableEq, Repr

/-- Observable events of one operation: state-machine mutations,
reference-count release on the connection object, and callback
invocations (channel-local and registry-wide). -/
inductive TraceEvent where
  | setState (st : BtScoState)
  | clearBind
  | unref
  | chanConnectedCb
  | chanDisconnectedCb (reason : Nat)
  | cbConnected (cid : Nat) (err : Nat)
  | cbDisconnected (cid : Nat) (reason : Nat)
  | logAnomaly
deriving DecidableEq, Repr

/-- Whole-subsystem state for one channel under observation: the
channel, the reference count of its connection object (0 when none was
ever allocated), a fresh-id source for connection objects, the singleton
server slot and the registry of global listeners in registration order. -/
structure ScoSystem where
  chan : BtScoChan
  connRef : Nat
  nextId : Nat
  sco_server : Option BtScoServer
  conn_cbs : List BtScoConnCb
deriving DecidableEq, Repr

/-- Errno-style return values used by the header's contracts
(negative value on error). -/
def EINVAL : Int := -22

/-- Already-registered error for the callback registry
(sco_internal.h line 200). -/
def EEXIST : Int := -17

/-- Not-registered error (sco_internal.h line 213). -/
def ENOENT : Int := -2

/-- Already-registered error for the singleton server slot. -/
def EADDRINUSE : Int := -98

/-- HCI reason used when the core itself rejects an incoming
synchronous-link request. -/
def scoRejectReason : Nat := 13

/-- State setter from the header (line 151): assigns the life-span
state of a channel. -/
def bt_sco_chan_set_state (chan : BtScoChan) (st : BtScoState) : BtScoChan :=
  { chan with state := st }

/-- Modelled from the spec: fan-out of the registry's connected
notification (the implementing sco.c is not in the sources). Every
listener is visited in registration order; per the header doc
(lines 158-162, 165-174) a listener whose connected field is NULL is
skipped, and `err` is the HCI status of connection establishment
(zero for success, non-zero when establishment failed). -/
def sco_notify_connected : List BtScoConnCb → Nat → List TraceEvent
  | [], _ => []
  | c :: rest, err =>
      (if c.hasConnected then [TraceEvent.cbConnected c.cid err] else []) ++
        sco_notify_connected rest err

/-- Modelled from the spec: fan-out of the registry's disconnected
notification, in registration order, skipping listeners whose
disconnected field is NULL (sco.c is not in the sources). -/
def sco_notify_disconnected : List BtScoConnCb → Nat → List TraceEvent
  | [], _ => []
  | c :: rest, reason =>
      (if c.hasDisconnected then [TraceEvent.cbDisconnected c.cid reason] else []) ++
        sco_notify_disconnected rest reason

/-- Modelled from the spec: `bt_conn_create_sco` (header lines 58-70,
spec 4.2; sco.c is not in the sources). Rejects when the channel is
already bound (state not DISCONNECTED), when the peer address is
invalid, or when no link-layer slot is available; the system is
unchanged on every failure path. On success a fresh connection object
is allocated (references: connection table, caller, channel binding),
the channel is bound and driven to CONNECTING, or to ENCRYPT_PENDING
when the channel requires security and the ACL is not yet encrypted. -/
def bt_conn_create_sco (peerValid allocOk aclEncrypted secRequired : Bool)
    (s : ScoSystem) : Option Nat × ScoSystem :=
  if s.chan.state ≠ BtScoState.DISCONNECTED then (none, s)
  else if peerValid = false then (none, s)
  else if allocOk = false then (none, s)
  else
    let cid := s.nextId
    let st := if aclEncrypted || !secRequired then BtScoState.CONNECTING
              else BtScoState.ENCRYPT_PENDING
    (some cid,
      { s with
        chan := bt_sco_chan_set_state { s.chan with sco := some cid } st,
        connRef := 3,
        nextId := s.nextId + 1 })

/-- Modelled from the spec: `bt_sco_server_register` (header
lines 104-114, spec 4.3; sco.c is not in the sources). Fails with
EINVAL on a NULL server or one missing the mandatory accept callback,
and with an already-registered error when the singleton slot is
occupied. -/
def bt_sco_server_register (server : Option BtScoServer)
    (s : ScoSystem) : Int × ScoSystem :=
  match server with
  | none => (EINVAL, s)
  | some srv =>
      if srv.hasAccept = false then (EINVAL, s)
      else
        match s.sco_server with
        | some _ => (EADDRINUSE, s)
        | none => (0, { s with sco_server := some srv })

/-- Modelled from the spec: `bt_sco_server_unregister` (header
lines 116-124, spec 4.3; sco.c is not in the sources). Fails when no
server is registered or when the argument does not match the
registered one. -/
def bt_sco_server_unregister (server : Option BtScoServer)
    (s : ScoSystem) : Int × ScoSystem :=
  match server with
  | none => (EINVAL, s)
  | some srv =>
      match s.sco_server with
      | none => (ENOENT, s)
      | some r =>
          if r.sid = srv.sid then (0, { s with sco_server := none })
          else (ENOENT, s)

/-- Modelled from the spec: `bt_sco_conn_cb_register` (header
lines 192-202; sco.c is not in the sources). EINVAL for NULL, EEXIST
for a listener already present, otherwise appended at the tail of the
registration-ordered list. -/
def bt_sco_conn_cb_register (cb : Option BtScoConnCb)
    (s : ScoSystem) : Int × ScoSystem :=
  match cb with
  | none => (EINVAL, s)
  | some c =>
      if s.conn_cbs.any (fun k => k.cid == c.cid) then (EEXIST, s)
      else (0, { s with conn_cbs := s.conn_cbs ++ [c] })

/-- Modelled from the spec: `bt_sco_conn_cb_unregister` (header
lines 204-215; sco.c is not in the sources). EINVAL for NULL, ENOENT
when the listener is not currently registered, otherwise removed. -/
def bt_sco_conn_cb_unregister (cb : Option BtScoConnCb)
    (s : ScoSystem) : Int × ScoSystem :=
  match cb with
  | none => (EINVAL, s)
  | some c =>
      if s.conn_cbs.any (fun k => k.cid == c.cid) then
        (0, { s with conn_cbs := s.conn_cbs.filter (fun k => !(k.cid == c.cid)) })
      else (ENOENT, s)

/-- Modelled from the spec: `bt_esco_conn_req` (header line 142,
spec 4.3; sco.c is not in the sources). With no registered server the
request is rejected (fail-closed). Otherwise the registered accept
callback runs; its outcome is an oracle input (`acceptRet`, and whether
it supplied a channel). A non-zero outcome or a missing channel
rejects with no state change; success with a valid channel (unbound,
DISCONNECTED) binds it to the pending connection object (references:
connection table and channel binding) and drives it to CONNECTING. -/
def bt_esco_conn_req (acceptRet : Int) (givesChan : Bool)
    (s : ScoSystem) : Nat × ScoSystem :=
  match s.sco_server with
  | none => (scoRejectReason, s)
  | some _ =>
      if acceptRet ≠ 0 ∨ givesChan = false then (scoRejectReason, s)
      else if s.chan.state = BtScoState.DISCONNECTED ∧ s.chan.sco = none then
        (0,
          { s with
            chan := bt_sco_chan_set_state { s.chan with sco := some s.nextId }
                      BtScoState.CONNECTING,
            connRef := 2,
            nextId := s.nextId + 1 })
      else (scoRejectReason, s)

/-- Modelled from the spec: `bt_sco_connected` (header lines 126-132,
spec 4.4; sco.c is not in the sources). A no-op (logged anomaly) when
no channel is bound or the channel is not in CONNECTING; otherwise the
channel moves to CONNECTED, its own connected callback fires (when
provided), then every registry listener's connected notification fires
with err = 0, in registration order. -/
def bt_sco_connected (s : ScoSystem) : ScoSystem × List TraceEvent :=
  match s.chan.sco with
  | none => (s, [TraceEvent.logAnomaly])
  | some _ =>
      if s.chan.state = BtScoState.CONNECTING then
        ({ s with chan := bt_sco_chan_set_state s.chan BtScoState.CONNECTED },
          TraceEvent.setState BtScoState.CONNECTED ::
            ((if s.chan.ops.connected then [TraceEvent.chanConnectedCb] else []) ++
              sco_notify_connected s.conn_cbs 0))
      else (s, [TraceEvent.logAnomaly])

/-- Modelled from the spec: `bt_sco_disconnected` (header
lines 134-140, spec 4.4; sco.c is not in the sources). A no-op (logged
anomaly) when no channel is bound or the channel is already
DISCONNECTED; otherwise, in this order: the channel moves to
DISCONNECTED, the core's reference to the connection object is
released exactly once, the binding is cleared, the channel's own
disconnected callback fires (when provided), then every registry
listener's disconnected notification fires in registration order. -/
def bt_sco_disconnected (reason : Nat) (s : ScoSystem) :
    ScoSystem × List TraceEvent :=
  match s.chan.sco with
  | none => (s, [TraceEvent.logAnomaly])
  | some _ =>
      if s.chan.state = BtScoState.DISCONNECTED then (s, [TraceEvent.logAnomaly])
      else
        ({ s with
            chan := bt_sco_chan_set_state { s.chan with sco := none }
                      BtScoState.DISCONNECTED,
            connRef := s.connRef - 1 },
          [TraceEvent.setState BtScoState.DISCONNECTED, TraceEvent.unref,
            TraceEvent.clearBind] ++
            (if s.chan.ops.disconnected then [TraceEvent.chanDisconnectedCb reason]
              else []) ++
            sco_notify_disconnected s.conn_cbs reason)

/-- Modelled from the spec: handling of a transport connection-failed
report for a channel in CONNECTING (spec 4.1 row; sco.c is not in the
sources). The channel is torn down to DISCONNECTED with its reference
released and binding cleared, the channel's own disconnected callback
fires with the failure status (header lines 38-47: also on rejection
or security failure), and registry listeners receive the connected
notification with the non-zero HCI status (header lines 165-174). -/
def sco_conn_failed (status : Nat) (s : ScoSystem) :
    ScoSystem × List TraceEvent :=
  match s.chan.sco with
  | none => (s, [TraceEvent.logAnomaly])
  | some _ =>
      if s.chan.state = BtScoState.CONNECTING ∧ status ≠ 0 then
        ({ s with
            chan := bt_sco_chan_set_state { s.chan with sco := none }
                      BtScoState.DISCONNECTED,
            connRef := s.connRef - 1 },
          [TraceEvent.setState BtScoState.DISCONNECTED, TraceEvent.unref,
            TraceEvent.clearBind] ++
            (if s.chan.ops.disconnected then [TraceEvent.chanDisconnectedCb status]
              else []) ++
            sco_notify_connected s.conn_cbs status)
      else (s, [TraceEvent.logAnomaly])

/-- Modelled from the spec: completion of ACL encryption for a channel
parked in ENCRYPT_PENDING (spec 4.1 rows; sco.c is not in the
sources). Success resumes the link-layer request (CONNECTING); failure
tears the channel down through the disconnected path with the
authentication-failure reason 0x05. -/
def sco_encrypt_change (success : Bool) (s : ScoSystem) :
    ScoSystem × List TraceEvent :=
  if s.chan.state = BtScoState.ENCRYPT_PENDING then
    if success then
      ({ s with chan := bt_sco_chan_set_state s.chan BtScoState.CONNECTING },
        [TraceEvent.setState BtScoState.CONNECTING])
    else bt_sco_disconnected 5 s
  else (s, [])

/-- Modelled from the spec: a locally requested disconnect of an
established link (spec 4.1 row, spec 5 on cancellation; sco.c is not
in the sources): CONNECTED moves to DISCONNECTING, awaiting the
transport's confirmation. -/
def sco_disconnect_initiate (s : ScoSystem) : ScoSystem × List TraceEvent :=
  if s.chan.state = BtScoState.CONNECTED then
    ({ s with chan := bt_sco_chan_set_state s.chan BtScoState.DISCONNECTING },
      [TraceEvent.setState BtScoState.DISCONNECTING])
  else (s, [])

/-- One external stimulus to the subsystem: an application call or a
transport event, with the oracle inputs each needs. -/
inductive ScoEvent where
  | create (peerValid allocOk aclEncrypted secRequired : Bool)
  | encryptChange (success : Bool)
  | connReq (acceptRet : Int) (givesChan : Bool)
  | connectedEvt
  | connFailedEvt (status : Nat)
  | disconnectedEvt (reason : Nat)
  | disconnectReq
  | serverReg (srv : Option BtScoServer)
  | serverUnreg (srv : Option BtScoServer)
  | cbReg (cb : Option BtScoConnCb)
  | cbUnreg (cb : Option BtScoConnCb)
deriving DecidableEq, Repr

/-- The subsystem's reaction to one stimulus: the next state and the
observable trace of that step. -/
def scoStep (s : ScoSystem) : ScoEvent → ScoSystem × List TraceEvent
  | ScoEvent.create pv ok enc sec => ((bt_conn_create_sco pv ok enc sec s).2, [])
  | ScoEvent.encryptChange ok => sco_encrypt_change ok s
  | ScoEvent.connReq r g => ((bt_esco_conn_req r g s).2, [])
  | ScoEvent.connectedEvt => bt_sco_connected s
  | ScoEvent.connFailedEvt st => sco_conn_failed st s
  | ScoEvent.disconnectedEvt reason => bt_sco_disconnected reason s
  | ScoEvent.disconnectReq => sco_disconnect_initiate s
  | ScoEvent.serverReg srv => ((bt_sco_server_register srv s).2, [])
  | ScoEvent.serverUnreg srv => ((bt_sco_server_unregister srv s).2, [])
  | ScoEvent.cbReg cb => ((bt_sco_conn_cb_register cb s).2, [])
  | ScoEvent.cbUnreg cb => ((bt_sco_conn_cb_unregister cb s).2, [])

/-- Initial subsystem state for a freshly allocated channel with the
given capability table: unbound, DISCONNECTED, no server, empty
registry. -/
def scoInit (ops : BtScoChanOps) : ScoSystem :=
  { chan := { sco := none, ops := ops, state := BtScoState.DISCONNECTED },
    connRef := 0,
    nextId := 0,
    sco_server := none,
    conn_cbs := [] }

/-- Run a sequence of stimuli from a state, keeping only the final
state. -/
def runEvents (s : ScoSystem) (evs : List ScoEvent) : ScoSystem :=
  evs.foldl (fun t e => (scoStep t e).1) s

/-- A state is reachable when some sequence of stimuli produces it from
the initial state of some channel. -/
def ScoReach (s : ScoSystem) : Prop :=
  ∃ ops evs, runEvents (scoInit ops) evs = s

/-- The edges of the claimed transition cycle
DISCONNECTED to ENCRYPT_PENDING or CONNECTING, then CONNECTED, then
DISCONNECTING, then back to DISCONNECTED. -/
def cycleEdge : BtScoState → BtScoState → Bool
  | BtScoState.DISCONNECTED, BtScoState.ENCRYPT_PENDING => true
  | BtScoState.DISCONNECTED, BtScoState.CONNECTING => true
  | BtScoState.ENCRYPT_PENDING, BtScoState.CONNECTING => true
  | BtScoState.CONNECTING, BtScoState.CONNECTED => true
  | BtScoState.CONNECTED, BtScoState.DISCONNECTING => true
  | BtScoState.DISCONNECTING, BtScoState.DISCONNECTED => true
  | _, _ => false

/-- The failure-teardown edges of the spec's transition table that fall
outside the cycle: encryption failure, establishment failure, and link
loss all return directly to DISCONNECTED. -/
def scoFailEdge : BtScoState → BtScoState → Bool
  | BtScoState.ENCRYPT_PENDING, BtScoState.DISCONNECTED => true
  | BtScoState.CONNECTING, BtScoState.DISCONNECTED => true
  | BtScoState.CONNECTED, BtScoState.DISCONNECTED => true
  | _, _ => false

/-- Every state change the subsystem can perform: a cycle edge or a
failure-teardown edge. -/
def allowedEdge (a b : BtScoState) : Bool :=
  cycleEdge a b || scoFailEdge a b

/-- Reference-count invariant: while a channel is bound, its connection
object carries at least the binding's reference and one more (the
connection table's or the creating caller's). -/
def ScoInv (s : ScoSystem) : Prop :=
  s.chan.sco.isSome = true → 2 ≤ s.connRef

end ScoModel

namespace ScoModel

/-- Registering a server never touches the channel. -/
lemma server_register_chan (v : Option BtScoServer) (s : ScoSystem) :
    ((bt_sco_server_register v s).2).chan = s.chan := by
  unfold bt_sco_server_register
  cases v with
  | none => rfl
  | some srv =>
      by_cases h : srv.hasAccept = false
      · simp [h]
      · simp [h]; cases s.sco_server <;> simp

/-- Unregistering a server never touches the channel. -/
lemma server_unregister_chan (v : Option BtScoServer) (s : ScoSystem) :
    ((bt_sco_server_unregister v s).2).chan = s.chan := by
  unfold bt_sco_server_unregister
  cases v with
  | none => rfl
  | some srv =>
      cases s.sco_server with
      | none => rfl
      | some r => by_cases h : r.sid = srv.sid <;> simp [h]

/-- Registering a global listener never touches the channel. -/
lemma conn_cb_register_chan (v : Option BtScoConnCb) (s : ScoSystem) :
    ((bt_sco_conn_cb_register v s).2).chan = s.chan := by
  unfold bt_sco_conn_cb_register
  cases v with
  | none => rfl
  | some c => by_cases h : s.conn_cbs.any (fun k => k.cid == c.cid) <;> simp [h]

/-- Unregistering a global listener never touches the channel. -/
lemma conn_cb_unregister_chan (v : Option BtScoConnCb) (s : ScoSystem) :
    ((bt_sco_conn_cb_unregister v s).2).chan = s.chan := by
  unfold bt_sco_conn_cb_unregister
  cases v with
  | none => rfl
  | some c => by_cases h : s.conn_cbs.any (fun k => k.cid == c.cid) <;> simp [h]

/-- Helper: one step never moves the channel state off the allowed
edge set (cycle edges plus failure-teardown edges). -/
lemma scoStep_edge (s : ScoSystem) (e : ScoEvent) :
    s.chan.state = ((scoStep s e).1).chan.state ∨
      allowedEdge s.chan.state ((scoStep s e).1).chan.state = true := by
  obtain ⟨⟨sco, ops, st⟩, cr, nid, srv, cbs⟩ := s
  cases e with
  | create pv ok enc sec =>
      cases st <;> cases pv <;> cases ok <;> cases enc <;> cases sec <;>
        simp [scoStep, bt_conn_create_sco, bt_sco_chan_set_state, allowedEdge,
          cycleEdge, scoFailEdge]
  | encryptChange ok =>
      cases st <;> cases ok <;> cases sco <;>
        simp [scoStep, sco_encrypt_change, bt_sco_disconnected,
          bt_sco_chan_set_state, allowedEdge, cycleEdge, scoFailEdge]
  | connReq r g =>
      cases st <;> cases g <;> cases sco <;> cases srv <;>
        simp [scoStep, bt_esco_conn_req, bt_sco_chan_set_state, allowedEdge,
          cycleEdge, scoFailEdge] <;>
        split <;> simp
  | connectedEvt =>
      cases st <;> cases sco <;>
        simp [scoStep, bt_sco_connected, bt_sco_chan_set_state, allowedEdge,
          cycleEdge, scoFailEdge]
  | connFailedEvt status =>
      cases st <;> cases sco <;>
        simp [scoStep, sco_conn_failed, bt_sco_chan_set_state, allowedEdge,
          cycleEdge, scoFailEdge] <;>
        split <;> simp_all
  | disconnectedEvt reason =>
      cases st <;> cases sco <;>
        simp [scoStep, bt_sco_disconnected, bt_sco_chan_set_state, allowedEdge,
          cycleEdge, scoFailEdge]
  | disconnectReq =>
      cases st <;>
        simp [scoStep, sco_disconnect_initiate, bt_sco_chan_set_state,
          allowedEdge, cycleEdge, scoFailEdge]
  | serverReg v =>
      simp only [scoStep]
      exact Or.inl (by rw [server_register_chan])
  | serverUnreg v =>
      simp only [scoStep]
      exact Or.inl (by rw [server_unregister_chan])
  | cbReg v =>
      simp only [scoStep]
      exact Or.inl (by rw [conn_cb_register_chan])
  | cbUnreg v =>
      simp only [scoStep]
      exact Or.inl (by rw [conn_cb_unregister_chan])

/-- C1 (amended): every state change performed by any operation of the
subsystem follows either an edge of the claimed cycle DISCONNECTED to
ENCRYPT_PENDING or CONNECTING to CONNECTED to DISCONNECTING to
DISCONNECTED, or one of the failure-teardown edges ENCRYPT_PENDING,
CONNECTING or CONNECTED directly back to DISCONNECTED (encryption
failure, establishment failure, link loss); in particular no step ever
performs a direct DISCONNECTED to CONNECTED or CONNECTED to CONNECTING
transition. -/
theorem C1_state_transitions_amended :
    (∀ (s : ScoSystem) (e : ScoEvent),
        s.chan.state = ((scoStep s e).1).chan.state ∨
          allowedEdge s.chan.state ((scoStep s e).1).chan.state = true) ∧
      allowedEdge BtScoState.DISCONNECTED BtScoState.CONNECTED = false ∧
        allowedEdge BtScoState.CONNECTED BtScoState.CONNECTING = false :=
  ⟨scoStep_edge, rfl, rfl⟩

/-- C1 counterexample: from the initial state a successful outgoing
create drives the channel to CONNECTING, and a transport disconnect
report then moves it directly to DISCONNECTED, an edge outside the
claimed cycle (the DISCONNECTING teardown step is skipped). -/
theorem C1_cycle_counterexample :
    (runEvents (scoInit ⟨true, true⟩)
          [ScoEvent.create true true true false]).chan.state =
        BtScoState.CONNECTING ∧
      (runEvents (scoInit ⟨true, true⟩)
            [ScoEvent.create true true true false,
              ScoEvent.disconnectedEvt 19]).chan.state =
          BtScoState.DISCONNECTED ∧
        cycleEdge BtScoState.CONNECTING BtScoState.DISCONNECTED = false := by
  decide

/-- The connected fan-out visits exactly the listeners that provide a
connected callback, in registration order, passing the establishment
status unchanged. -/
lemma notify_connected_eq (cbs : List BtScoConnCb) (err : Nat) :
    sco_notify_connected cbs err =
      (cbs.filter (fun k => k.hasConnected)).map
        (fun k => TraceEvent.cbConnected k.cid err) := by
  induction cbs with
  | nil => rfl
  | cons c rest ih =>
      by_cases h : c.hasConnected <;>
        simp [sco_notify_connected, List.filter_cons, h, ih]

/-- The disconnected fan-out visits exactly the listeners that provide
a disconnected callback, in registration order, passing the reason
unchanged. -/
lemma notify_disconnected_eq (cbs : List BtScoConnCb) (reason : Nat) :
    sco_notify_disconnected cbs reason =
      (cbs.filter (fun k => k.hasDisconnected)).map
        (fun k => TraceEvent.cbDisconnected k.cid reason) := by
  induction cbs with
  | nil => rfl
  | cons c rest ih =>
      by_cases h : c.hasDisconnected <;>
        simp [sco_notify_disconnected, List.filter_cons, h, ih]

/-- The disconnected fan-out contains only registry-callback events,
never a reference release. -/
lemma unref_not_in_notify_disconnected (cbs : List BtScoConnCb) (reason : Nat) :
    TraceEvent.unref ∉ sco_notify_disconnected cbs reason := by
  induction cbs with
  | nil => simp [sco_notify_disconnected]
  | cons c rest ih =>
      by_cases h : c.hasDisconnected <;>
        simp [sco_notify_disconnected, h, ih]

/-- The connected fan-out never contains the channel-local connected
event. -/
lemma chanCb_not_in_notify_connected (cbs : List BtScoConnCb) (err : Nat) :
    TraceEvent.chanConnectedCb ∉ sco_notify_connected cbs err := by
  induction cbs with
  | nil => simp [sco_notify_connected]
  | cons c rest ih =>
      by_cases h : c.hasConnected <;>
        simp [sco_notify_connected, h, ih]

/-- Multiplicity of one listener's connected event in the fan-out. -/
lemma count_notify_connected (cbs : List BtScoConnCb) (err x : Nat) :
    (sco_notify_connected cbs err).count (TraceEvent.cbConnected x err) =
      cbs.countP (fun k => k.hasConnected && (k.cid == x)) := by
  induction cbs with
  | nil => rfl
  | cons c rest ih =>
      by_cases h : c.hasConnected
      · by_cases hx : c.cid = x <;>
          simp [sco_notify_connected, List.countP_cons, List.count_cons, h, hx, ih]
      · simp [sco_notify_connected, List.countP_cons, h, ih]

/-- Multiplicity of one listener's disconnected event in the fan-out. -/
lemma count_notify_disconnected (cbs : List BtScoConnCb) (reason x : Nat) :
    (sco_notify_disconnected cbs reason).count
        (TraceEvent.cbDisconnected x reason) =
      cbs.countP (fun k => k.hasDisconnected && (k.cid == x)) := by
  induction cbs with
  | nil => rfl
  | cons c rest ih =>
      by_cases h : c.hasDisconnected
      · by_cases hx : c.cid = x <;>
          simp [sco_notify_disconnected, List.countP_cons, List.count_cons, h, hx, ih]
      · simp [sco_notify_disconnected, List.countP_cons, h, ih]

/-- When listener identities are unique, a registered listener that
provides the callback is counted exactly once. -/
lemma countP_cid_eq_one (p : BtScoConnCb → Bool) (cbs : List BtScoConnCb)
    (k : BtScoConnCb) (hnd : (cbs.map BtScoConnCb.cid).Nodup) (hm : k ∈ cbs)
    (hk : p k = true) :
    cbs.countP (fun x => p x && (x.cid == k.cid)) = 1 := by
  induction cbs with
  | nil => cases hm
  | cons c rest ih =>
      rw [List.map_cons, List.nodup_cons] at hnd
      rcases List.mem_cons.mp hm with h | h
      · subst h
        have hz : rest.countP (fun x => p x && (x.cid == k.cid)) = 0 := by
          refine List.countP_eq_zero.mpr (fun a ha hpa => ?_)
          have hmem : a.cid ∈ rest.map BtScoConnCb.cid :=
            List.mem_map_of_mem BtScoConnCb.cid ha
          have : a.cid = k.cid := by
            have := (Bool.and_eq_true _ _).mp hpa
            exact beq_iff_eq.mp this.2
          exact hnd.1 (this ▸ hmem)
        simp [List.countP_cons, hk, hz]
      · have hc : ¬ (c.cid = k.cid) := by
          intro he
          exact hnd.1 (he ▸ List.mem_map_of_mem BtScoConnCb.cid h)
        have hr := ih hnd.2 h
        simp [List.countP_cons, hc, hr]

/-- C2: for a bound channel in any non-DISCONNECTED state, the
disconnect demuxer entry sets the state to DISCONNECTED, releases the
core's reference to the connection object exactly once, and clears the
binding, all before the channel's own disconnected callback and then
every registry listener's disconnected notification in registration
order (the trace places the state, unref and unbind events ahead of
every callback event, and the returned channel is already unbound, so
it may be rebound inside a callback). -/
theorem C2_disconnected_teardown (s : ScoSystem) (c reason : Nat)
    (hb : s.chan.sco = some c) (hs : s.chan.state ≠ BtScoState.DISCONNECTED) :
    ((bt_sco_disconnected reason s).1).chan.state = BtScoState.DISCONNECTED ∧
      ((bt_sco_disconnected reason s).1).chan.sco = none ∧
        ((bt_sco_disconnected reason s).1).connRef = s.connRef - 1 ∧
          (bt_sco_disconnected reason s).2 =
            [TraceEvent.setState BtScoState.DISCONNECTED, TraceEvent.unref,
                TraceEvent.clearBind] ++
              ((if s.chan.ops.disconnected then
                    [TraceEvent.chanDisconnectedCb reason]
                  else []) ++
                sco_notify_disconnected s.conn_cbs reason) ∧
            ((bt_sco_disconnected reason s).2).count TraceEvent.unref = 1 := by
  have hnz : (sco_notify_disconnected s.conn_cbs reason).count TraceEvent.unref = 0 :=
    List.count_eq_zero.mpr (unref_not_in_notify_disconnected s.conn_cbs reason)
  unfold bt_sco_disconnected
  rw [hb]
  simp only [hs, if_false, bt_sco_chan_set_state]
  by_cases hd : s.chan.ops.disconnected <;>
    simp [hd, List.count_append, List.count_cons, hnz]

/-- C2 witness: a concrete bound CONNECTED channel torn down with
reason 0x16. -/
theorem C2_disconnected_teardown_witness :
    ((bt_sco_disconnected 22
          { chan := { sco := some 0, ops := ⟨true, true⟩,
                      state := BtScoState.CONNECTED },
            connRef := 3, nextId := 1, sco_server := none,
            conn_cbs := [⟨7, true, true⟩] }).1).chan.state =
        BtScoState.DISCONNECTED :=
  (C2_disconnected_teardown
      { chan := { sco := some 0, ops := ⟨true, true⟩,
                  state := BtScoState.CONNECTED },
        connRef := 3, nextId := 1, sco_server := none,
        conn_cbs := [⟨7, true, true⟩] } 0 22 rfl (by decide)).1

/-- C3: the connect demuxer entry is a no-op (logged anomaly) when no
channel is bound; when a channel in CONNECTING is bound it moves to
CONNECTED and the trace fires the channel's own connected callback
exactly once (when provided), followed by the registry's connected
notification, each listener providing a connected callback firing
exactly once, in registration order. -/
theorem C3_connected_demux (s : ScoSystem) :
    (s.chan.sco = none → bt_sco_connected s = (s, [TraceEvent.logAnomaly])) ∧
      (∀ c, s.chan.sco = some c → s.chan.state = BtScoState.CONNECTING →
        ((bt_sco_connected s).1).chan.state = BtScoState.CONNECTED ∧
          (bt_sco_connected s).2 =
            TraceEvent.setState BtScoState.CONNECTED ::
              ((if s.chan.ops.connected then [TraceEvent.chanConnectedCb]
                  else []) ++
                sco_notify_connected s.conn_cbs 0) ∧
            (s.chan.ops.connected = true →
                ((bt_sco_connected s).2).count TraceEvent.chanConnectedCb = 1) ∧
              (∀ k, k ∈ s.conn_cbs → k.hasConnected = true →
                (s.conn_cbs.map BtScoConnCb.cid).Nodup →
                  ((bt_sco_connected s).2).count
                      (TraceEvent.cbConnected k.cid 0) = 1)) := by
  have hnc : TraceEvent.chanConnectedCb ∉ sco_notify_connected s.conn_cbs 0 :=
    chanCb_not_in_notify_connected s.conn_cbs 0
  constructor
  · intro h
    unfold bt_sco_connected
    rw [h]
  · intro c hb hst
    refine ⟨?_, ?_, ?_, ?_⟩
    · unfold bt_sco_connected
      rw [hb]
      simp [hst, bt_sco_chan_set_state]
    · unfold bt_sco_connected
      rw [hb]
      simp [hst]
    · intro hc
      unfold bt_sco_connected
      rw [hb]
      simp [hst, hc, List.count_cons, List.count_append,
        List.count_eq_zero.mpr hnc]
    · intro k hk hkc hnd
      have h1 := count_notify_connected s.conn_cbs 0 k.cid
      have h2 := countP_cid_eq_one (fun x => x.hasConnected) s.conn_cbs k hnd hk hkc
      unfold bt_sco_connected
      rw [hb]
      by_cases hoc : s.chan.ops.connected <;>
        simp [hst, hoc, List.count_cons, List.count_append, h1, h2]

/-- C3 witness: a concrete bound CONNECTING channel with one registered
listener reaches CONNECTED. -/
theorem C3_connected_demux_witness :
    ((bt_sco_connected
          { chan := { sco := some 0, ops := ⟨true, true⟩,
                      state := BtScoState.CONNECTING },
            connRef := 3, nextId := 1, sco_server := none,
            conn_cbs := [⟨7, true, true⟩] }).1).chan.state =
        BtScoState.CONNECTED :=
  ((C3_connected_demux
        { chan := { sco := some 0, ops := ⟨true, true⟩,
                    state := BtScoState.CONNECTING },
          connRef := 3, nextId := 1, sco_server := none,
          conn_cbs := [⟨7, true, true⟩] }).2 0 rfl rfl).1

/-- C4: the outgoing initiator fails (returns NULL) when the channel is
already bound (state not DISCONNECTED), when the peer address is
invalid, or when no link-layer resource is available, and on every
failure path the whole system - in particular the channel's state and
binding - is unchanged. -/
theorem C4_create_error_paths (s : ScoSystem) (pv ok enc sec : Bool) :
    (s.chan.state ≠ BtScoState.DISCONNECTED →
        bt_conn_create_sco pv ok enc sec s = (none, s)) ∧
      (pv = false → bt_conn_create_sco pv ok enc sec s = (none, s)) ∧
        (ok = false → bt_conn_create_sco pv ok enc sec s = (none, s)) ∧
          (∀ r, bt_conn_create_sco pv ok enc sec s = (none, r) → r = s) := by
  refine ⟨?_, ?_, ?_, ?_⟩
  · intro h
    simp [bt_conn_create_sco, h]
  · intro h
    by_cases h1 : s.chan.state = BtScoState.DISCONNECTED <;>
      simp [bt_conn_create_sco, h1, h]
  · intro h
    by_cases h1 : s.chan.state = BtScoState.DISCONNECTED <;>
      by_cases h2 : pv = false <;>
        simp [bt_conn_create_sco, h1, h2, h]
  · intro r h
    by_cases h1 : s.chan.state = BtScoState.DISCONNECTED
    · by_cases h2 : pv = false
      · simp [bt_conn_create_sco, h1, h2] at h
        exact h.symm
      · by_cases h3 : ok = false
        · simp [bt_conn_create_sco, h1, h2, h3] at h
          exact h.symm
        · simp [bt_conn_create_sco, h1, h2, h3] at h
    · simp [bt_conn_create_sco, h1] at h
      exact h.symm

/-- C4 witness: creation with an invalid peer on a fresh channel fails
and leaves the system unchanged. -/
theorem C4_create_error_paths_witness :
    bt_conn_create_sco false true true false (scoInit ⟨true, true⟩) =
      (none, scoInit ⟨true, true⟩) :=
  (C4_create_error_paths (scoInit ⟨true, true⟩) false true true false).2.1 rfl

/-- C5: with no registered server every incoming synchronous-link
request is rejected with no state change (fail-closed default); with a
server registered, a non-zero accept outcome or a missing channel also
rejects with no state change; an accept that succeeds and supplies an
unbound DISCONNECTED channel binds it to the pending connection object
and drives it to CONNECTING, the request being answered with success
(and the reject answer is a genuine rejection, a non-zero status). -/
theorem C5_conn_req_authorizer (s : ScoSystem) (r : Int) (g : Bool) :
    (s.sco_server = none → bt_esco_conn_req r g s = (scoRejectReason, s)) ∧
      (∀ srv, s.sco_server = some srv → (r ≠ 0 ∨ g = false) →
          bt_esco_conn_req r g s = (scoRejectReason, s)) ∧
        (∀ srv, s.sco_server = some srv → r = 0 → g = true →
            s.chan.state = BtScoState.DISCONNECTED → s.chan.sco = none →
              (bt_esco_conn_req r g s).1 = 0 ∧
                ((bt_esco_conn_req r g s).2).chan.state =
                    BtScoState.CONNECTING ∧
                  ((bt_esco_conn_req r g s).2).chan.sco = some s.nextId) ∧
          scoRejectReason ≠ 0 := by
  refine ⟨?_, ?_, ?_, by decide⟩
  · intro h
    unfold bt_esco_conn_req
    rw [h]
  · intro srv hsrv hrej
    unfold bt_esco_conn_req
    rw [hsrv]
    rcases hrej with h | h <;> simp [h]
  · intro srv hsrv hr hg hst hsco
    unfold bt_esco_conn_req
    rw [hsrv]
    simp [hr, hg, hst, hsco, bt_sco_chan_set_state]

/-- C5 witness: accept success with a valid channel binds and drives it
to CONNECTING. -/
theorem C5_conn_req_authorizer_witness :
    ((bt_esco_conn_req 0 true
          { chan := { sco := none, ops := ⟨true, true⟩,
                      state := BtScoState.DISCONNECTED },
            connRef := 0, nextId := 4, sco_server := some ⟨1, 0, true⟩,
            conn_cbs := [] }).2).chan.state = BtScoState.CONNECTING :=
  ((C5_conn_req_authorizer
        { chan := { sco := none, ops := ⟨true, true⟩,
                    state := BtScoState.DISCONNECTED },
          connRef := 0, nextId := 4, sco_server := some ⟨1, 0, true⟩,
          conn_cbs := [] } 0 true).2.2.1 ⟨1, 0, true⟩ rfl rfl rfl rfl
      rfl).2.1

/-- C6: registering a server fails with EINVAL when the argument is
NULL or lacks the mandatory accept callback, and with the
already-registered error when the singleton slot is occupied;
unregistering fails with the not-registered error when no server is
registered or when the argument does not match the registered one. -/
theorem C6_server_registration (s : ScoSystem) (srv : BtScoServer) :
    bt_sco_server_register none s = (EINVAL, s) ∧
      (srv.hasAccept = false →
          bt_sco_server_register (some srv) s = (EINVAL, s)) ∧
        (srv.hasAccept = true → ∀ q, s.sco_server = some q →
            bt_sco_server_register (some srv) s = (EADDRINUSE, s)) ∧
          (s.sco_server = none →
              bt_sco_server_unregister (some srv) s = (ENOENT, s)) ∧
            (∀ q, s.sco_server = some q → q.sid ≠ srv.sid →
              bt_sco_server_unregister (some srv) s = (ENOENT, s)) := by
  refine ⟨rfl, ?_, ?_, ?_, ?_⟩
  · intro h
    simp [bt_sco_server_register, h]
  · intro h q hq
    unfold bt_sco_server_register
    rw [hq]
    simp [h]
  · intro h
    unfold bt_sco_server_unregister
    rw [h]
  · intro q hq hne
    unfold bt_sco_server_unregister
    rw [hq]
    simp [hne]

/-- C6 witness: registering a second server on an occupied slot fails
with the already-registered error. -/
theorem C6_server_registration_witness :
    bt_sco_server_register (some ⟨2, 0, true⟩)
        { chan := { sco := none, ops := ⟨true, true⟩,
                    state := BtScoState.DISCONNECTED },
          connRef := 0, nextId := 0, sco_server := some ⟨1, 0, true⟩,
          conn_cbs := [] } =
      (EADDRINUSE,
        { chan := { sco := none, ops := ⟨true, true⟩,
                    state := BtScoState.DISCONNECTED },
          connRef := 0, nextId := 0, sco_server := some ⟨1, 0, true⟩,
          conn_cbs := [] }) :=
  (C6_server_registration
      { chan := { sco := none, ops := ⟨true, true⟩,
                  state := BtScoState.DISCONNECTED },
        connRef := 0, nextId := 0, sco_server := some ⟨1, 0, true⟩,
        conn_cbs := [] } ⟨2, 0, true⟩).2.2.1 rfl ⟨1, 0, true⟩ rfl

/-- After an unregister call for listener c, no listener with c's
identity remains in the registry (whether or not it was present). -/
lemma unregister_no_cid (s : ScoSystem) (c : BtScoConnCb) :
    ∀ k ∈ ((bt_sco_conn_cb_unregister (some c) s).2).conn_cbs,
      ¬ (k.cid = c.cid) := by
  unfold bt_sco_conn_cb_unregister
  by_cases h : s.conn_cbs.any (fun k => k.cid == c.cid)
  · simp only [h, if_true]
    intro k hk
    have := List.mem_filter.mp hk
    simpa using this.2
  · have h' : s.conn_cbs.any (fun k => k.cid == c.cid) = false := by
      simpa using h
    simp only [h', Bool.false_eq_true, if_false]
    intro k hk
    rw [List.any_eq_false] at h'
    simpa using h' k hk

/-- C7: registering a NULL listener fails with EINVAL and registering a
present one with EEXIST, success appends at the tail; unregistering an
absent listener fails with ENOENT, so a second unregister of the same
listener fails with the not-registered error after the first
succeeded; and after an unregister neither notification fan-out ever
invokes that listener again. -/
theorem C7_conn_cb_registry (s : ScoSystem) (c : BtScoConnCb) :
    bt_sco_conn_cb_register none s = (EINVAL, s) ∧
      (s.conn_cbs.any (fun k => k.cid == c.cid) = true →
          bt_sco_conn_cb_register (some c) s = (EEXIST, s)) ∧
        (s.conn_cbs.any (fun k => k.cid == c.cid) = false →
            bt_sco_conn_cb_register (some c) s =
              (0, { s with conn_cbs := s.conn_cbs ++ [c] })) ∧
          (s.conn_cbs.any (fun k => k.cid == c.cid) = false →
              bt_sco_conn_cb_unregister (some c) s = (ENOENT, s)) ∧
            (s.conn_cbs.any (fun k => k.cid == c.cid) = true →
                (bt_sco_conn_cb_unregister (some c) s).1 = 0 ∧
                  (bt_sco_conn_cb_unregister (some c)
                        ((bt_sco_conn_cb_unregister (some c) s).2)).1 =
                    ENOENT) ∧
              (∀ err,
                  (sco_notify_connected
                        ((bt_sco_conn_cb_unregister (some c) s).2).conn_cbs
                        err).count
                      (TraceEvent.cbConnected c.cid err) = 0) ∧
                (∀ rn,
                  (sco_notify_disconnected
                        ((bt_sco_conn_cb_unregister (some c) s).2).conn_cbs
                        rn).count
                      (TraceEvent.cbDisconnected c.cid rn) = 0) := by
  have hno := unregister_no_cid s c
  refine ⟨rfl, ?_, ?_, ?_, ?_, ?_, ?_⟩
  · intro h
    simp [bt_sco_conn_cb_register, h]
  · intro h
    simp [bt_sco_conn_cb_register, h]
  · intro h
    simp [bt_sco_conn_cb_unregister, h]
  · intro h
    refine ⟨by simp [bt_sco_conn_cb_unregister, h], ?_⟩
    have habs :
        (((bt_sco_conn_cb_unregister (some c) s).2).conn_cbs).any
            (fun k => k.cid == c.cid) = false := by
      rw [List.any_eq_false]
      intro k hk
      simpa using hno k hk
    conv_lhs => rw [bt_sco_conn_cb_unregister]
    simp [habs]
  · intro err
    rw [count_notify_connected]
    refine List.countP_eq_zero.mpr (fun a ha => ?_)
    simp [hno a ha]
  · intro rn
    rw [count_notify_disconnected]
    refine List.countP_eq_zero.mpr (fun a ha => ?_)
    simp [hno a ha]

/-- C7 witness: double unregister of a registered listener succeeds
once and then fails with the not-registered error. -/
theorem C7_conn_cb_registry_witness :
    (bt_sco_conn_cb_unregister (some ⟨7, true, true⟩)
        { chan := { sco := none, ops := ⟨true, true⟩,
                    state := BtScoState.DISCONNECTED },
          connRef := 0, nextId := 0, sco_server := none,
          conn_cbs := [⟨7, true, true⟩] }).1 = 0 :=
  ((C7_conn_cb_registry
        { chan := { sco := none, ops := ⟨true, true⟩,
                    state := BtScoState.DISCONNECTED },
          connRef := 0, nextId := 0, sco_server := none,
          conn_cbs := [⟨7, true, true⟩] } ⟨7, true, true⟩).2.2.2.2.1
      rfl).1

/-- C8: a connected signal delivered with no bound channel or with the
channel outside CONNECTING, and a disconnected signal delivered with
no bound channel or with the channel already DISCONNECTED, are
absorbed: the whole system (channel state, binding, server slot and
registry) is unchanged and the only observable effect is a log entry. -/
theorem C8_anomaly_absorbed (s : ScoSystem) (reason : Nat) :
    ((s.chan.sco = none ∨ s.chan.state ≠ BtScoState.CONNECTING) →
        bt_sco_connected s = (s, [TraceEvent.logAnomaly])) ∧
      ((s.chan.sco = none ∨ s.chan.state = BtScoState.DISCONNECTED) →
        bt_sco_disconnected reason s = (s, [TraceEvent.logAnomaly])) := by
  constructor
  · intro h
    unfold bt_sco_connected
    cases hsco : s.chan.sco with
    | none => rfl
    | some v =>
        rcases h with h | h
        · rw [hsco] at h
          cases h
        · simp [h]
  · intro h
    unfold bt_sco_disconnected
    cases hsco : s.chan.sco with
    | none => rfl
    | some v =>
        rcases h with h | h
        · rw [hsco] at h
          cases h
        · simp [h]

/-- C8 witness: a connected signal on a bound DISCONNECTING channel is
absorbed with only a log entry. -/
theorem C8_anomaly_absorbed_witness :
    bt_sco_connected
        { chan := { sco := some 0, ops := ⟨true, true⟩,
                    state := BtScoState.DISCONNECTING },
          connRef := 2, nextId := 1, sco_server := none, conn_cbs := [] } =
      ({ chan := { sco := some 0, ops := ⟨true, true⟩,
                   state := BtScoState.DISCONNECTING },
         connRef := 2, nextId := 1, sco_server := none, conn_cbs := [] },
        [TraceEvent.logAnomaly]) :=
  (C8_anomaly_absorbed
      { chan := { sco := some 0, ops := ⟨true, true⟩,
                  state := BtScoState.DISCONNECTING },
        connRef := 2, nextId := 1, sco_server := none, conn_cbs := [] }
      0).1 (Or.inr (by decide))

/-- C9: every registry connected notification passes the establishment
status through unchanged to exactly the listeners that provide a
connected callback (NULL fields are skipped, not errors), the success
demuxer path notifies with err = 0, and the failed-establishment path
notifies the same connected fan-out with the non-zero HCI status; the
disconnected fan-out likewise skips listeners whose disconnected field
is NULL. -/
theorem C9_connected_err_semantics (s : ScoSystem) (cbs : List BtScoConnCb)
    (err : Nat) :
    sco_notify_connected cbs err =
        (cbs.filter (fun k => k.hasConnected)).map
          (fun k => TraceEvent.cbConnected k.cid err) ∧
      sco_notify_disconnected cbs err =
          (cbs.filter (fun k => k.hasDisconnected)).map
            (fun k => TraceEvent.cbDisconnected k.cid err) ∧
        (∀ c, s.chan.sco = some c → s.chan.state = BtScoState.CONNECTING →
            (bt_sco_connected s).2 =
              TraceEvent.setState BtScoState.CONNECTED ::
                ((if s.chan.ops.connected then [TraceEvent.chanConnectedCb]
                    else []) ++
                  sco_notify_connected s.conn_cbs 0)) ∧
          (∀ c status, s.chan.sco = some c →
            s.chan.state = BtScoState.CONNECTING → status ≠ 0 →
              (sco_conn_failed status s).2 =
                [TraceEvent.setState BtScoState.DISCONNECTED,
                    TraceEvent.unref, TraceEvent.clearBind] ++
                  ((if s.chan.ops.disconnected then
                        [TraceEvent.chanDisconnectedCb status] else []) ++
                    sco_notify_connected s.conn_cbs status)) := by
  refine ⟨notify_connected_eq cbs err, notify_disconnected_eq cbs err, ?_, ?_⟩
  · intro c hb hst
    unfold bt_sco_connected
    rw [hb]
    simp [hst]
  · intro c status hb hst hnz
    unfold sco_conn_failed
    rw [hb]
    simp [hst, hnz]

/-- C9 witness: the success fan-out fires with err 0 for the one
listener providing a connected callback and skips the one that does
not. -/
theorem C9_connected_err_semantics_witness :
    sco_notify_connected [⟨3, true, true⟩, ⟨4, false, true⟩] 0 =
      [TraceEvent.cbConnected 3 0] :=
  (C9_connected_err_semantics (scoInit ⟨true, true⟩)
      [⟨3, true, true⟩, ⟨4, false, true⟩] 0).1

/-- Registering a server never touches the connection reference count. -/
lemma server_register_connRef (v : Option BtScoServer) (s : ScoSystem) :
    ((bt_sco_server_register v s).2).connRef = s.connRef := by
  unfold bt_sco_server_register
  cases v with
  | none => rfl
  | some srv =>
      by_cases h : srv.hasAccept = false
      · simp [h]
      · simp [h]; cases s.sco_server <;> simp

/-- Unregistering a server never touches the connection reference
count. -/
lemma server_unregister_connRef (v : Option BtScoServer) (s : ScoSystem) :
    ((bt_sco_server_unregister v s).2).connRef = s.connRef := by
  unfold bt_sco_server_unregister
  cases v with
  | none => rfl
  | some srv =>
      cases s.sco_server with
      | none => rfl
      | some r => by_cases h : r.sid = srv.sid <;> simp [h]

/-- Registering a listener never touches the connection reference
count. -/
lemma conn_cb_register_connRef (v : Option BtScoConnCb) (s : ScoSystem) :
    ((bt_sco_conn_cb_register v s).2).connRef = s.connRef := by
  unfold bt_sco_conn_cb_register
  cases v with
  | none => rfl
  | some c => by_cases h : s.conn_cbs.any (fun k => k.cid == c.cid) <;> simp [h]

/-- Unregistering a listener never touches the connection reference
count. -/
lemma conn_cb_unregister_connRef (v : Option BtScoConnCb) (s : ScoSystem) :
    ((bt_sco_conn_cb_unregister v s).2).connRef = s.connRef := by
  unfold bt_sco_conn_cb_unregister
  cases v with
  | none => rfl
  | some c => by_cases h : s.conn_cbs.any (fun k => k.cid == c.cid) <;> simp [h]

/-- The reference-count invariant is preserved by every step. -/
lemma scoStep_inv (s : ScoSystem) (e : ScoEvent) (h : ScoInv s) :
    ScoInv ((scoStep s e).1) := by
  obtain ⟨⟨sco, ops, st⟩, cr, nid, srv, cbs⟩ := s
  unfold ScoInv at *
  cases e with
  | create pv ok enc sec =>
      cases st <;> cases pv <;> cases ok <;> cases enc <;> cases sec <;>
        simp_all [scoStep, bt_conn_create_sco, bt_sco_chan_set_state]
  | encryptChange ok =>
      cases st <;> cases ok <;> cases sco <;>
        simp_all [scoStep, sco_encrypt_change, bt_sco_disconnected,
          bt_sco_chan_set_state]
  | connReq r g =>
      cases st <;> cases g <;> cases sco <;> cases srv <;>
        simp_all [scoStep, bt_esco_conn_req, bt_sco_chan_set_state] <;>
        (try split) <;> simp_all
  | connectedEvt =>
      cases st <;> cases sco <;>
        simp_all [scoStep, bt_sco_connected, bt_sco_chan_set_state]
  | connFailedEvt status =>
      cases st <;> cases sco <;>
        simp_all [scoStep, sco_conn_failed, bt_sco_chan_set_state] <;>
        (try split) <;> simp_all
  | disconnectedEvt reason =>
      cases st <;> cases sco <;>
        simp_all [scoStep, bt_sco_disconnected, bt_sco_chan_set_state]
  | disconnectReq =>
      cases st <;> cases sco <;>
        simp_all [scoStep, sco_disconnect_initiate, bt_sco_chan_set_state]
  | serverReg v =>
      intro hb
      simp only [scoStep] at hb ⊢
      rw [server_register_chan] at hb
      rw [server_register_connRef]
      exact h hb
  | serverUnreg v =>
      intro hb
      simp only [scoStep] at hb ⊢
      rw [server_unregister_chan] at hb
      rw [server_unregister_connRef]
      exact h hb
  | cbReg v =>
      intro hb
      simp only [scoStep] at hb ⊢
      rw [conn_cb_register_chan] at hb
      rw [conn_cb_register_connRef]
      exact h hb
  | cbUnreg v =>
      intro hb
      simp only [scoStep] at hb ⊢
      rw [conn_cb_unregister_chan] at hb
      rw [conn_cb_unregister_connRef]
      exact h hb

/-- The reference-count invariant holds along every run. -/
lemma runEvents_inv (evs : List ScoEvent) :
    ∀ t, ScoInv t → ScoInv (runEvents t evs) := by
  induction evs with
  | nil => exact fun t h => h
  | cons e rest ih => exact fun t h => ih _ (scoStep_inv t e h)

/-- The reference-count invariant holds in every reachable state. -/
lemma reach_inv (s : ScoSystem) (h : ScoReach s) : ScoInv s := by
  obtain ⟨ops, evs, rfl⟩ := h
  exact runEvents_inv evs _ (fun hb => by simp [scoInit] at hb)

/-- C10: in every reachable state, tearing down a bound
non-DISCONNECTED channel releases exactly one reference and still
leaves at least one reference on the connection object, and the trace
places both callback stages after that single release, so the
connection object is alive for the full duration of every disconnected
notification. -/
theorem C10_disconnected_ref_held (s : ScoSystem) (c reason : Nat)
    (hr : ScoReach s) (hb : s.chan.sco = some c)
    (hs : s.chan.state ≠ BtScoState.DISCONNECTED) :
    1 ≤ ((bt_sco_disconnected reason s).1).connRef ∧
      ((bt_sco_disconnected reason s).1).connRef = s.connRef - 1 ∧
        ((bt_sco_disconnected reason s).2).count TraceEvent.unref = 1 ∧
          (bt_sco_disconnected reason s).2 =
            [TraceEvent.setState BtScoState.DISCONNECTED, TraceEvent.unref,
                TraceEvent.clearBind] ++
              ((if s.chan.ops.disconnected then
                    [TraceEvent.chanDisconnectedCb reason] else []) ++
                sco_notify_disconnected s.conn_cbs reason) := by
  have hinv : 2 ≤ s.connRef := reach_inv s hr (by rw [hb]; rfl)
  have hnz : (sco_notify_disconnected s.conn_cbs reason).count
      TraceEvent.unref = 0 :=
    List.count_eq_zero.mpr (unref_not_in_notify_disconnected s.conn_cbs reason)
  unfold bt_sco_disconnected
  rw [hb]
  simp only [hs, if_false, bt_sco_chan_set_state]
  by_cases hd : s.chan.ops.disconnected <;>
    simp [hd, List.count_append, List.count_cons, hnz] <;>
      omega

/-- C10 witness: after a concrete successful outgoing creation, the
teardown leaves two references on the connection object. -/
theorem C10_disconnected_ref_held_witness :
    1 ≤ ((bt_sco_disconnected 8
          (runEvents (scoInit ⟨true, true⟩)
            [ScoEvent.create true true true false])).1).connRef :=
  (C10_disconnected_ref_held
      (runEvents (scoInit ⟨true, true⟩) [ScoEvent.create true true true false])
      0 8 ⟨⟨true, true⟩, [ScoEvent.create true true true false], rfl⟩
      (by decide) (by decide)).1

end ScoModel
